import Mathlib

/-!
Verification development for the `wasm_interp` WebAssembly interpreter.

Each definition in this file is a shallow embedding of a function of the
Rust source tree (`src/wasm/src/...`), translated arm by arm.  Machine
integers are modelled as `Nat` carrying the unsigned bit pattern of the
corresponding Rust `u32`/`u64` value, with two's-complement reinterpretation
made explicit (`toI32` / `ofI32` ...).  Fallible Rust code (`Result`) is
modelled with explicit result types; a Rust `panic!` / `unimplemented!` /
failing `assert!` / arithmetic-overflow abort is modelled by a distinguished
`panicked` outcome, kept separate from an `Err` result, because the two are
observably different to the caller.
-/

namespace WasmInterp

/-! ## Two's-complement helpers

The interpreter stores all integer stack values as unsigned bit patterns
(`StackEntry::I32Entry(u32)`, `I64Entry(u64)`, see
`src/wasm/src/core/stack_entry.rs`); signed opcodes reinterpret the bits.
-/

/-- Reinterpret a `u32` bit pattern as the signed `i32` it transmutes to. -/
def toI32 (n : Nat) : Int :=
  if n % 2 ^ 32 < 2 ^ 31 then (n % 2 ^ 32 : Nat) else (n % 2 ^ 32 : Nat) - 2 ^ 32

/-- The `u32` bit pattern of a signed `i32` value. -/
def ofI32 (i : Int) : Nat := (i % 2 ^ 32).toNat

/-- Reinterpret a `u64` bit pattern as the signed `i64` it transmutes to. -/
def toI64 (n : Nat) : Int :=
  if n % 2 ^ 64 < 2 ^ 63 then (n % 2 ^ 64 : Nat) else (n % 2 ^ 64 : Nat) - 2 ^ 64

/-- The `u64` bit pattern of a signed `i64` value. -/
def ofI64 (i : Int) : Nat := (i % 2 ^ 64).toNat

/-- Largest value of a Rust `usize` (the targets of this crate are 64-bit). -/
def usizeMax : Nat := 2 ^ 64 - 1

/-! ## Rust arithmetic primitives used by the executor

`wrapping_div` / `wrapping_rem` on Rust signed integers panic when the
divisor is zero and otherwise truncate toward zero, wrapping the single
overflowing case `MIN / -1` back to `MIN`.  `Int.tdiv` / `Int.tmod` are
Lean's truncating division, matching Rust's `/` and `%` on in-range values.
A `none` result models the Rust panic.
-/

/-- Rust `i32::wrapping_div` on two `u32` bit patterns. -/
def wrappingDivS32 (a b : Nat) : Option Nat :=
  if toI32 b = 0 then none else some (ofI32 (Int.tdiv (toI32 a) (toI32 b)))

/-- Rust `i32::wrapping_rem` on two `u32` bit patterns. -/
def wrappingRemS32 (a b : Nat) : Option Nat :=
  if toI32 b = 0 then none else some (ofI32 (Int.tmod (toI32 a) (toI32 b)))

/-- Rust `u32::wrapping_div`. -/
def wrappingDivU32 (a b : Nat) : Option Nat :=
  if b % 2 ^ 32 = 0 then none else some ((a % 2 ^ 32) / (b % 2 ^ 32))

/-- Rust `u32::wrapping_rem`. -/
def wrappingRemU32 (a b : Nat) : Option Nat :=
  if b % 2 ^ 32 = 0 then none else some ((a % 2 ^ 32) % (b % 2 ^ 32))

/-- Rust `i64::wrapping_div` on two `u64` bit patterns. -/
def wrappingDivS64 (a b : Nat) : Option Nat :=
  if toI64 b = 0 then none else some (ofI64 (Int.tdiv (toI64 a) (toI64 b)))

/-- Rust `i64::wrapping_rem` on two `u64` bit patterns. -/
def wrappingRemS64 (a b : Nat) : Option Nat :=
  if toI64 b = 0 then none else some (ofI64 (Int.tmod (toI64 a) (toI64 b)))

/-- Rust `u64::rotate_left` restricted to amounts below 64 (the executor
only ever passes `b % 32`). -/
def rotl64 (a k : Nat) : Nat :=
  let k := k % 64
  ((a % 2 ^ 64) * 2 ^ k) % 2 ^ 64 ||| (a % 2 ^ 64) / 2 ^ (64 - k) % 2 ^ 64

/-- Rust `u64::rotate_right` restricted to amounts below 64. -/
def rotr64 (a k : Nat) : Nat :=
  let k := k % 64
  (a % 2 ^ 64) / 2 ^ k ||| ((a % 2 ^ 64) * 2 ^ (64 - k)) % 2 ^ 64

/-! ## Float values

The executor only inspects floats through Rust's saturating `as` casts in
the `trunc` opcodes, so a float is modelled as NaN, an infinity, or an
exact finite value (every finite IEEE-754 float is a rational). -/

/-- A host floating point value, as far as the truncation opcodes care. -/
inductive FVal where
  | nan : FVal
  | inf : FVal
  | neginf : FVal
  | finite (q : ℚ) : FVal
deriving DecidableEq, Repr

/-- Truncation of a rational toward zero, the rounding Rust `as` performs
before clamping. -/
def ratTrunc (q : ℚ) : Int := Int.tdiv q.num q.den

/-- Rust saturating float-to-integer `as` cast: NaN becomes 0, infinities
and out-of-range values clamp to the destination bounds. -/
def rustFloatToInt (v : FVal) (lo hi : Int) : Int :=
  match v with
  | .nan => 0
  | .inf => hi
  | .neginf => lo
  | .finite q => max lo (min hi (ratTrunc q))

/-! ## Stack entries (`src/wasm/src/core/stack_entry.rs`)

Integer entries store the raw unsigned bit pattern, exactly as the Rust
enum does.  `TryFrom<StackEntry>` for each primitive type fails with
"Cannot convert stack entry" on a tag mismatch. -/

/-- `StackEntry` from `stack_entry.rs`. -/
inductive StackEntry where
  | unused : StackEntry
  | i32Entry (bits : Nat) : StackEntry
  | i64Entry (bits : Nat) : StackEntry
  | f32Entry (v : FVal) : StackEntry
  | f64Entry (v : FVal) : StackEntry
deriving DecidableEq, Repr

/-- `StackEntry::is_same_type`. -/
def StackEntry.isSameType : StackEntry → StackEntry → Bool
  | .unused, .unused => true
  | .i32Entry _, .i32Entry _ => true
  | .i64Entry _, .i64Entry _ => true
  | .f32Entry _, .f32Entry _ => true
  | .f64Entry _, .f64Entry _ => true
  | _, _ => false

/-! ## Memories and the executor's store

`Memory` (`src/wasm/src/core/memory.rs`) is a page vector; only the page
count matters to `memory.size` / `memory.grow`, so the vector of zeroed
64 KiB pages is represented by its length. -/

/-- `Memory` from `memory.rs`, with the page vector abstracted to its
length (pages are zero-filled on creation and growth). -/
structure Memory where
  minimumPages : Nat
  maximumPages : Option Nat
  pages : Nat
deriving DecidableEq, Repr

/-- `Memory::new_from_bounds`. -/
def Memory.newFromBounds (minimumPages : Nat) (maximumPages : Option Nat) : Memory :=
  { minimumPages, maximumPages, pages := minimumPages }

/-- `Memory::current_size`. -/
def Memory.currentSize (m : Memory) : Nat := m.pages

/-- `Memory::grow_by`: `current_size().checked_add(grow_by)` guards usize
overflow, and the new size must not exceed `max_size().unwrap_or(new_size)`;
on success exactly `grow_by` fresh pages are appended, otherwise the memory
is left untouched and an error is returned (`none`). -/
def Memory.growBy (m : Memory) (growBy : Nat) : Option Memory :=
  if m.currentSize + growBy ≤ usizeMax then
    if m.currentSize + growBy ≤ (m.maximumPages.getD (m.currentSize + growBy)) then
      some { m with pages := m.pages + growBy }
    else
      none
  else
    none

/-- The executor-facing store, holding the instance's linear memories
(the `ExpressionStore` view used by `MemorySize` / `MemoryGrow`). -/
structure Store where
  memories : List Memory
deriving DecidableEq, Repr

/-- `get_memory_size`: look up the memory and return its current page
count; "Memory index out of range" if absent. -/
def Store.getMemorySize (s : Store) (idx : Nat) : Except String Nat :=
  match s.memories.get? idx with
  | some m => .ok m.currentSize
  | none => .error "Memory index out of range"

/-- `grow_memory_by`: delegate to `Memory::grow_by` on the idx-th memory. -/
def Store.growMemoryBy (s : Store) (idx growBy : Nat) : Except String Store :=
  match s.memories.get? idx with
  | some m =>
    match m.growBy growBy with
    | some m' => .ok { s with memories := s.memories.set idx m' }
    | none => .error "New memory is too big"
  | none => .error "Memory index out of range"

/-! ## The expression executor (`src/wasm/src/core/executor/execute_core.rs`)

The executor iterates decoded instructions; an instruction is its opcode
together with its already-decoded immediate arguments (the byte-level
scanner that produces them is modelled separately below).  The embedding
covers the opcodes the claims are about; each arm is translated from the
matching arm of `execute_single_instruction` (the superseded copy in
`src/wasm/src/core/executor.rs` lines 342-681 has byte-identical arms for
all of these opcodes). -/

/-- A decoded instruction (opcode plus immediates) for the opcodes
modelled here.  Integer immediates carry the unsigned bit pattern the
accessors (`get_single_i32_arg` and friends) return. -/
inductive Instr where
  | i32Const (bits : Nat) : Instr
  | i64Const (bits : Nat) : Instr
  | f32Const (v : FVal) : Instr
  | f64Const (v : FVal) : Instr
  | i32DivS : Instr
  | i32DivU : Instr
  | i32RemS : Instr
  | i32RemU : Instr
  | i64DivS : Instr
  | i64RemS : Instr
  | i64Shl : Instr
  | i64ShrS : Instr
  | i64ShrU : Instr
  | i64Rotl : Instr
  | i64Rotr : Instr
  | i32TruncF32S : Instr
  | i32TruncF32U : Instr
  | i32TruncF64S : Instr
  | i32TruncF64U : Instr
  | i64TruncF32S : Instr
  | i64TruncF32U : Instr
  | i64TruncF64S : Instr
  | i64TruncF64U : Instr
  | memorySize (memIdx : Nat) : Instr
  | memoryGrow (memIdx : Nat) : Instr
  | callIndirect (typeIdx tableIdx : Nat) : Instr
  | globalGet (idx : Nat) : Instr
deriving DecidableEq, Repr

/-- `InstructionResult` from `execute_core.rs`, restricted to the control
instructions representable by `Instr`. -/
inductive CtrlResult where
  | callIndirect : CtrlResult
deriving DecidableEq, Repr

/-- Outcome of `execute_single_instruction`: `done`/`ctrl` are the two `Ok`
shapes, `error` an `Err(anyhow!..)` return, `panicked` a Rust panic. -/
inductive StepOut where
  | done (stack : List StackEntry) (store : Store) : StepOut
  | ctrl (c : CtrlResult) (stack : List StackEntry) (store : Store) : StepOut
  | error (msg : String) : StepOut
  | panicked (msg : String) : StepOut
deriving DecidableEq, Repr

/-- `binary_op` specialised to a closure on two `u32` patterns
(`stack_ops.rs`): probe two operands, pop both, convert (tag check), apply,
push.  A `none` from the closure is a panic inside it. -/
def binaryOpI32 (f : Nat → Nat → Option Nat) (panicMsg : String)
    (stack : List StackEntry) (store : Store) : StepOut :=
  match stack with
  | b :: a :: rest =>
    match a, b with
    | .i32Entry x, .i32Entry y =>
      match f x y with
      | some r => .done (.i32Entry r :: rest) store
      | none => .panicked panicMsg
    | _, _ => .error "Cannot convert stack entry"
  | _ => .error "Not enough values on stack"

/-- `binary_op` specialised to two `u64` patterns. -/
def binaryOpI64 (f : Nat → Nat → Option Nat) (panicMsg : String)
    (stack : List StackEntry) (store : Store) : StepOut :=
  match stack with
  | b :: a :: rest =>
    match a, b with
    | .i64Entry x, .i64Entry y =>
      match f x y with
      | some r => .done (.i64Entry r :: rest) store
      | none => .panicked panicMsg
    | _, _ => .error "Cannot convert stack entry"
  | _ => .error "Not enough values on stack"

/-- `unary_op` specialised to an `f32` operand producing a `u32` pattern. -/
def unaryOpF32ToI32 (f : FVal → Nat) (stack : List StackEntry) (store : Store) : StepOut :=
  match stack with
  | a :: rest =>
    match a with
    | .f32Entry v => .done (.i32Entry (f v) :: rest) store
    | _ => .error "Cannot convert stack entry"
  | _ => .error "Not enough values on stack"

/-- `unary_op` specialised to an `f64` operand producing a `u32` pattern. -/
def unaryOpF64ToI32 (f : FVal → Nat) (stack : List StackEntry) (store : Store) : StepOut :=
  match stack with
  | a :: rest =>
    match a with
    | .f64Entry v => .done (.i32Entry (f v) :: rest) store
    | _ => .error "Cannot convert stack entry"
  | _ => .error "Not enough values on stack"

/-- `unary_op` specialised to an `f32` operand producing a `u64` pattern. -/
def unaryOpF32ToI64 (f : FVal → Nat) (stack : List StackEntry) (store : Store) : StepOut :=
  match stack with
  | a :: rest =>
    match a with
    | .f32Entry v => .done (.i64Entry (f v) :: rest) store
    | _ => .error "Cannot convert stack entry"
  | _ => .error "Not enough values on stack"

/-- `unary_op` specialised to an `f64` operand producing a `u64` pattern. -/
def unaryOpF64ToI64 (f : FVal → Nat) (stack : List StackEntry) (store : Store) : StepOut :=
  match stack with
  | a :: rest =>
    match a with
    | .f64Entry v => .done (.i64Entry (f v) :: rest) store
    | _ => .error "Cannot convert stack entry"
  | _ => .error "Not enough values on stack"

/-- The Rust cast `a as i32` for `a : f32` or `f64`, as a `u32` pattern. -/
def castToI32S (v : FVal) : Nat := ofI32 (rustFloatToInt v (-(2 ^ 31)) (2 ^ 31 - 1))

/-- The Rust cast `a as u32`. -/
def castToI32U (v : FVal) : Nat := (rustFloatToInt v 0 (2 ^ 32 - 1)).toNat

/-- The Rust cast `a as i64`, as a `u64` pattern. -/
def castToI64S (v : FVal) : Nat := ofI64 (rustFloatToInt v (-(2 ^ 63)) (2 ^ 63 - 1))

/-- The Rust cast `a as u64`. -/
def castToI64U (v : FVal) : Nat := (rustFloatToInt v 0 (2 ^ 64 - 1)).toNat

/-- `execute_single_instruction` (`execute_core.rs` lines 69-446), arm by
arm for the modelled opcodes.  Division arms call the Rust `wrapping_*`
helpers, which panic on a zero divisor; the i64 shift and rotate arms take
the right operand modulo 32 exactly as the source does (`a << (b % 32)`
and friends); the trunc arms are plain saturating `as` casts; the
`I64ShrS` arm computes `b % 32` on the signed value and shifts by it
(an arithmetic right shift).  `GlobalGet` is modelled only as far as a
constant-expression store needs it below. -/
def executeSingleInstruction (i : Instr) (stack : List StackEntry) (store : Store) : StepOut :=
  match i with
  | .i32Const bits => .done (.i32Entry (bits % 2 ^ 32) :: stack) store
  | .i64Const bits => .done (.i64Entry (bits % 2 ^ 64) :: stack) store
  | .f32Const v => .done (.f32Entry v :: stack) store
  | .f64Const v => .done (.f64Entry v :: stack) store
  | .i32DivS => binaryOpI32 wrappingDivS32 "attempt to divide by zero" stack store
  | .i32DivU => binaryOpI32 wrappingDivU32 "attempt to divide by zero" stack store
  | .i32RemS =>
    binaryOpI32 wrappingRemS32
      "attempt to calculate the remainder with a divisor of zero" stack store
  | .i32RemU =>
    binaryOpI32 wrappingRemU32
      "attempt to calculate the remainder with a divisor of zero" stack store
  | .i64DivS => binaryOpI64 wrappingDivS64 "attempt to divide by zero" stack store
  | .i64RemS =>
    binaryOpI64 wrappingRemS64
      "attempt to calculate the remainder with a divisor of zero" stack store
  | .i64Shl =>
    binaryOpI64 (fun a b => some ((a % 2 ^ 64) * 2 ^ (b % 32) % 2 ^ 64)) "" stack store
  | .i64ShrS =>
    binaryOpI64
      (fun a b =>
        let sh := Int.tmod (toI64 b) 32
        if sh < 0 then none
        else some (ofI64 (Int.ediv (toI64 a) (2 ^ sh.toNat))))
      "attempt to shift right with overflow" stack store
  | .i64ShrU =>
    binaryOpI64 (fun a b => some ((a % 2 ^ 64) / 2 ^ (b % 32))) "" stack store
  | .i64Rotl => binaryOpI64 (fun a b => some (rotl64 a (b % 32))) "" stack store
  | .i64Rotr => binaryOpI64 (fun a b => some (rotr64 a (b % 32))) "" stack store
  | .i32TruncF32S => unaryOpF32ToI32 castToI32S stack store
  | .i32TruncF32U => unaryOpF32ToI32 castToI32U stack store
  | .i32TruncF64S => unaryOpF64ToI32 castToI32S stack store
  | .i32TruncF64U => unaryOpF64ToI32 castToI32U stack store
  | .i64TruncF32S => unaryOpF32ToI64 castToI64S stack store
  | .i64TruncF32U => unaryOpF32ToI64 castToI64U stack store
  | .i64TruncF64S => unaryOpF64ToI64 castToI64S stack store
  | .i64TruncF64U => unaryOpF64ToI64 castToI64U stack store
  | .memorySize memIdx =>
    match store.getMemorySize memIdx with
    | .error e => .error e
    | .ok size => .done (.i32Entry (size % 2 ^ 32) :: stack) store
  | .memoryGrow memIdx =>
    match store.getMemorySize memIdx with
    | .error e => .error e
    | .ok size =>
      let originalSize := size % 2 ^ 32
      match stack with
      | top :: rest =>
        match top with
        | .i32Entry n =>
          match store.growMemoryBy memIdx n with
          | .ok store' => .done (.i32Entry originalSize :: rest) store'
          | .error _ => .done (.i32Entry (ofI32 (-1)) :: rest) store
        | _ => .error "Cannot convert stack entry"
      | [] => .error "Not enough values on stack"
  | .callIndirect _ _ => .ctrl .callIndirect stack store
  | .globalGet _ => .error "Global value not present in this store model"

/-- Outcome of `execute_expression_internal`. -/
inductive ExecOut where
  | ok (stack : List StackEntry) (store : Store) : ExecOut
  | error (msg : String) : ExecOut
  | panicked (msg : String) : ExecOut
deriving DecidableEq, Repr

/-- `execute_expression_internal` (`execute_core.rs` lines 666-713) over an
already-decoded instruction list: run `execute_single_instruction` until a
control instruction surfaces; the `CallIndirect` dispatch arm is
`unimplemented!("Call not implemented")`, a panic. -/
def executeExpressionInternal (instrs : List Instr) (stack : List StackEntry)
    (store : Store) : ExecOut :=
  match instrs with
  | [] => .ok stack store
  | i :: rest =>
    match executeSingleInstruction i stack store with
    | .done stack' store' => executeExpressionInternal rest stack' store'
    | .ctrl .callIndirect _ _ => .panicked "not implemented: Call not implemented"
    | .error e => .error e
    | .panicked m => .panicked m

/-! ## Constant expressions (`execute_core.rs` lines 15-48, 448-473)

Constant expressions admit only the four `const` opcodes and `GlobalGet`;
the instantiator evaluates them for global initializers and element/data
offsets.  `DataModule` (`src/wasm/src/core/module.rs`) supplies
`get_global_value` over its global cells. -/

/-- The data half of an instantiated module: memories and global values
(`DataModule` in `module.rs`; a `Global` cell is represented by its
current value). -/
structure DataModule where
  memories : List Memory
  globals : List StackEntry
deriving DecidableEq, Repr

/-- `ConstantDataStore::get_global_value` for `DataModule`. -/
def DataModule.getGlobalValue (dm : DataModule) (idx : Nat) : Except String StackEntry :=
  match dm.globals.get? idx with
  | some g => .ok g
  | none => .error "Global index out of range"

/-- `execute_single_constant_instruction`: push a constant or a global's
value; every other opcode is rejected. -/
def executeSingleConstantInstruction (i : Instr) (stack : List StackEntry)
    (dm : DataModule) : Except String (List StackEntry) :=
  match i with
  | .i32Const bits => .ok (.i32Entry (bits % 2 ^ 32) :: stack)
  | .i64Const bits => .ok (.i64Entry (bits % 2 ^ 64) :: stack)
  | .f32Const v => .ok (.f32Entry v :: stack)
  | .f64Const v => .ok (.f64Entry v :: stack)
  | .globalGet idx =>
    match dm.getGlobalValue idx with
    | .ok v => .ok (v :: stack)
    | .error e => .error e
  | _ => .error "Opcode is not valid in constant expression"

/-- The instruction loop of `execute_constant_expression`. -/
def executeConstantExpression (instrs : List Instr) (stack : List StackEntry)
    (dm : DataModule) : Except String (List StackEntry) :=
  match instrs with
  | [] => .ok stack
  | i :: rest =>
    match executeSingleConstantInstruction i stack dm with
    | .ok stack' => executeConstantExpression rest stack' dm
    | .error e => .error e

/-- `evaluate_constant_expression`: run on a fresh stack, require at least
`arity` values, and return the top `arity` entries in bottom-to-top order
(the `frame()[working_limit - arity..working_limit]` slice). -/
def evaluateConstantExpression (instrs : List Instr) (dm : DataModule)
    (arity : Nat) : Except String (List StackEntry) :=
  match executeConstantExpression instrs [] dm with
  | .error e => .error e
  | .ok stack =>
    if stack.length < arity then .error "Not enough values returned by constant expression"
    else .ok (stack.take arity).reverse

/-- `DataModule::evaluate_offset_expression`: a constant expression of
arity 1 whose result must be an `I32Entry`; the `u32` pattern converts to
`usize` unchanged. -/
def DataModule.evaluateOffsetExpression (dm : DataModule) (instrs : List Instr) :
    Except String Nat :=
  match evaluateConstantExpression instrs dm 1 with
  | .error e => .error e
  | .ok result =>
    match result.headD .unused with
    | .i32Entry i => .ok i
    | _ => .error "Type mismatch in offset expression"

/-! ## Tables and element segments (`src/wasm/src/core/table.rs`,
`src/wasm/src/core/module.rs`)

A table entry holds an optional shared function reference; the reference
itself is opaque here and represented by a numeric identity.  The point
of interest is `Table::set_entries`, whose write loop indexes the entry
vector directly: an out-of-range slot panics (Rust `Vec` index out of
bounds) after the in-range prefix has already been overwritten. -/

/-- Opaque identity of an `Rc<RefCell<Callable>>`. -/
abbrev CallableRef := Nat

/-- `Table` from `table.rs`. -/
structure Table where
  minimumEntries : Nat
  maximumEntries : Option Nat
  entries : List (Option CallableRef)
deriving DecidableEq, Repr

/-- `Table::new_from_bounds`: `min` empty slots. -/
def Table.newFromBounds (minimumEntries : Nat) (maximumEntries : Option Nat) : Table :=
  { minimumEntries, maximumEntries, entries := List.replicate minimumEntries none }

/-- The write loop of `Table::set_entries`: assign
`entries[offset + idx] = Some(value)` for each function in order.  The
result is the final entry vector plus the panic message if some index ran
out of bounds; writes made before the panic are retained (the table lives
behind `Rc<RefCell<..>>` and is mutated in place). -/
def setEntriesLoop (entries : List (Option CallableRef)) (pos : Nat)
    (functions : List CallableRef) : List (Option CallableRef) × Option String :=
  match functions with
  | [] => (entries, none)
  | f :: fs =>
    if pos < entries.length then
      setEntriesLoop (entries.set pos (some f)) (pos + 1) fs
    else
      (entries, some "index out of bounds")

/-- `Table::set_entries(offset, functions)`. -/
def Table.setEntries (t : Table) (offset : Nat) (functions : List CallableRef) :
    Table × Option String :=
  let (entries, panicMsg) := setEntriesLoop t.entries offset functions
  ({ t with entries }, panicMsg)

/-- The function half of an instantiated module (`FunctionModule` in
`module.rs`): callables and tables. -/
structure FunctionModule where
  functions : List CallableRef
  tables : List Table
deriving DecidableEq, Repr

/-- An element segment (`core::Element`): target table, offset expression,
function index list. -/
structure Element where
  tableIdx : Nat
  expr : List Instr
  funcIndices : List Nat
deriving Repr

/-- The function-index resolution loop inside `initialize_table_element`:
each index must name an existing callable. -/
def resolveElementFunctions (functions : List CallableRef) (idxs : List Nat) :
    Except String (List CallableRef) :=
  match idxs with
  | [] => .ok []
  | idx :: rest =>
    match functions.get? idx with
    | none => .error "Function index out of range"
    | some f =>
      match resolveElementFunctions functions rest with
      | .ok fs => .ok (f :: fs)
      | .error e => .error e

/-- Outcome of `initialize_table_element`: the updated table list on
success, an `Err` result, or a panic (which still records the tables'
state, since the partially-updated table is shared and mutated in place). -/
inductive TableInitOut where
  | ok (tables : List Table) : TableInitOut
  | error (msg : String) : TableInitOut
  | panicked (msg : String) (tables : List Table) : TableInitOut
deriving DecidableEq, Repr

/-- `FunctionModule::initialize_table_element` (`module.rs` lines 391-419):
check the table index, evaluate the offset, resolve the callables, then
call `set_entries`, whose return value is `()` — any out-of-range write
panics inside it rather than surfacing as an `Err`. -/
def initializeTableElement (fm : FunctionModule) (dm : DataModule)
    (element : Element) : TableInitOut :=
  if element.tableIdx ≥ fm.tables.length then
    .error "Table initializer table idx out of range"
  else
    match fm.tables.get? element.tableIdx with
    | none => .error "Table initializer table idx out of range"
    | some table =>
      match dm.evaluateOffsetExpression element.expr with
      | .error e => .error e
      | .ok offset =>
        match resolveElementFunctions fm.functions element.funcIndices with
        | .error e => .error e
        | .ok functions =>
          let (table', panicMsg) := table.setEntries offset functions
          let tables' := fm.tables.set element.tableIdx table'
          match panicMsg with
          | some m => .panicked m tables'
          | none => .ok tables'

/-! ## Export collection (`module.rs` lines 549-565)

`collect_exports` inserts every export into a `HashMap<String,
ExportValue>`; `HashMap::insert` silently replaces an existing entry with
the same key.  The map is modelled as an association list with
replace-or-append insertion. -/

/-- `core::ExportDesc`. -/
inductive ExportDesc where
  | func (idx : Nat) : ExportDesc
  | table (idx : Nat) : ExportDesc
  | mem (idx : Nat) : ExportDesc
  | globalExp (idx : Nat) : ExportDesc
deriving DecidableEq, Repr

/-- `core::Export`: a name and a descriptor. -/
structure Export where
  nm : String
  d : ExportDesc
deriving DecidableEq, Repr

/-- `ExportValue` (`module.rs`): the cloned shared reference stored in the
export map. -/
inductive ExportValue where
  | function (c : CallableRef) : ExportValue
  | table (t : Table) : ExportValue
  | memory (m : Memory) : ExportValue
  | globalVal (g : StackEntry) : ExportValue
deriving DecidableEq, Repr

/-- `is_data_export`. -/
def isDataExport : ExportDesc → Bool
  | .mem _ => true
  | .globalExp _ => true
  | _ => false

/-- `FunctionModule::collect_export`. -/
def FunctionModule.collectExport (fm : FunctionModule) (desc : ExportDesc) :
    Except String ExportValue :=
  match desc with
  | .func idx =>
    match fm.functions.get? idx with
    | some f => .ok (.function f)
    | none => .error "Exported function index out of range"
  | .table idx =>
    match fm.tables.get? idx with
    | some t => .ok (.table t)
    | none => .error "Exported table index out of range"
  | _ => .error "Not a function export"

/-- `DataModule::collect_export`. -/
def DataModule.collectExport (dm : DataModule) (desc : ExportDesc) :
    Except String ExportValue :=
  match desc with
  | .mem idx =>
    match dm.memories.get? idx with
    | some m => .ok (.memory m)
    | none => .error "Exported memory index out of range"
  | .globalExp idx =>
    match dm.globals.get? idx with
    | some g => .ok (.globalVal g)
    | none => .error "Exported global index out of range"
  | _ => .error "Not a data export"

/-- `HashMap::insert` as replace-or-append on an association list. -/
def hashMapInsert (m : List (String × ExportValue)) (k : String) (v : ExportValue) :
    List (String × ExportValue) :=
  if (m.lookup k).isSome then
    m.map fun p => if p.1 = k then (k, v) else p
  else
    m ++ [(k, v)]

/-- `collect_exports` (`module.rs` lines 549-565): dispatch each export to
the owning half, propagate lookup errors, and insert into the map — with
no duplicate-name check of any kind. -/
def collectExports (fm : FunctionModule) (dm : DataModule) (exports : List Export)
    (acc : List (String × ExportValue)) : Except String (List (String × ExportValue)) :=
  match exports with
  | [] => .ok acc
  | e :: rest =>
    match (if isDataExport e.d then dm.collectExport e.d else fm.collectExport e.d) with
    | .error msg => .error msg
    | .ok v => collectExports fm dm rest (hashMapInsert acc e.nm v)

/-! ## Byte readers (`src/wasm/src/reader/reader_util.rs`)

A reader is the remaining byte stream plus the remaining budget of each
enclosing `ScopedReader` (innermost first).  A `read` sees end-of-input
as soon as either the bytes or any enclosing budget run out; `read_exact`
turns that into `UnexpectedEof`. -/

/-- A byte source: remaining bytes and the stack of `ScopedReader`
budgets wrapped around it, innermost first. -/
structure Rdr where
  bytes : List Nat
  scopes : List Nat
deriving DecidableEq, Repr

/-- How an `io::Result` fails, or how the surrounding Rust code dies. -/
inductive ReadErr where
  | eof : ReadErr
  | invalidData (msg : String) : ReadErr
  | panicked (msg : String) : ReadErr
deriving DecidableEq, Repr

/-- Result of a read computation. -/
abbrev RdResult (α : Type) := Except ReadErr (α × Rdr)

/-- Bytes obtainable before some limit (stream or enclosing scope) is hit. -/
def Rdr.avail (r : Rdr) : Nat := r.scopes.foldl min r.bytes.length

/-- Consume `n` bytes unconditionally (caller has checked availability). -/
def Rdr.consume (r : Rdr) (n : Nat) : Rdr :=
  { bytes := r.bytes.drop n, scopes := r.scopes.map (· - n) }

/-- `read_exact` into an `n`-byte buffer. -/
def readExact (n : Nat) (r : Rdr) : RdResult (List Nat) :=
  if n ≤ r.avail then .ok (r.bytes.take n, r.consume n) else .error .eof

/-- `read_u8`. -/
def readU8 (r : Rdr) : RdResult Nat :=
  match readExact 1 r with
  | .ok (bs, r') => .ok (bs.headD 0, r')
  | .error e => .error e

/-- `ScopedReader::new(reader, size)`. -/
def Rdr.pushScope (r : Rdr) (size : Nat) : Rdr :=
  { bytes := r.bytes, scopes := size :: r.scopes }

/-- Leaving a `ScopedReader`: recover the parent reader and report the
inner scope's unconsumed budget (`is_at_end` holds iff it is zero). -/
def Rdr.popScope (r : Rdr) : Nat × Rdr :=
  match r.scopes with
  | s :: rest => (s, { bytes := r.bytes, scopes := rest })
  | [] => (0, r)

/-- The loop of `read_leb_u32` (`reader_util.rs` lines 26-38): keep
consuming bytes while the continuation bit is set, or-ing
`(byte & 0x7f) << shift` into a `u32` accumulator.  There is no length
limit: after five continuation bytes `shift` reaches 35 and the `u32`
shift overflows — an arithmetic-overflow panic (debug semantics; a release
build silently masks the shift) — rather than any decode error. -/
def readLebU32Loop : List Nat → List Nat → Nat → Nat → Except ReadErr (Nat × List Nat × List Nat)
  | [], _, _, _ => .error .eof
  | b :: rest, scopes, result, shift =>
    if scopes.all (0 < ·) then
      if 32 ≤ shift then .error (.panicked "attempt to shift left with overflow")
      else
        let result := result ||| (b % 128) * 2 ^ shift % 2 ^ 32
        if b % 256 < 128 then .ok (result, rest, scopes.map (· - 1))
        else readLebU32Loop rest (scopes.map (· - 1)) result (shift + 7)
    else .error .eof

/-- `read_leb_u32`. -/
def readLebU32 (r : Rdr) : RdResult Nat :=
  match readLebU32Loop r.bytes r.scopes 0 0 with
  | .ok (v, bytes, scopes) => .ok (v, { bytes, scopes })
  | .error e => .error e

/-- `read_leb_usize` (the `u32` value converts to `usize` unchanged). -/
def readLebUsize (r : Rdr) : RdResult Nat := readLebU32 r

/-- `get_leb_u64_at` from `src/wasm/src/parser/instruction_accumulator.rs`
(lines 93-120): decode an unsigned 64-bit LEB at `pos` in an accumulator
buffer.  At the tenth chunk the byte must fit in the single permitted bit;
otherwise the function panics `"LEB integer is too big"` — a panic, not a
decode error.  The `remaining` fuel only bounds the recursion; ten
suffices because the tenth chunk always returns or panics. -/
def getLebU64Loop (buf : List Nat) (offset pos result shift remaining : Nat) :
    Except ReadErr Nat :=
  match remaining with
  | 0 => .error (.panicked "LEB loop overran its bound")
  | rem + 1 =>
    match buf.get? pos with
    | none => .error (.panicked "Byte is not available")
    | some byte =>
      if pos = offset + 9 ∧ byte % 256 % 2 ≠ byte % 256 then
        .error (.panicked "LEB integer is too big")
      else
        let result := result ||| (byte % 128) * 2 ^ shift % 2 ^ 64
        if byte % 256 < 128 then .ok result
        else getLebU64Loop buf offset (pos + 1) result (shift + 7) rem

/-- `get_leb_u64_at(offset)`. -/
def getLebU64At (buf : List Nat) (offset : Nat) : Except ReadErr Nat :=
  getLebU64Loop buf offset offset 0 0 10

/-- `get_leb_u32_at` (`instruction_accumulator.rs` lines 25-52): the
32-bit variant, whose fifth chunk must fit in four bits or the function
panics `"LEB integer is too big"`. -/
def getLebU32Loop (buf : List Nat) (offset pos result shift remaining : Nat) :
    Except ReadErr Nat :=
  match remaining with
  | 0 => .error (.panicked "LEB loop overran its bound")
  | rem + 1 =>
    match buf.get? pos with
    | none => .error (.panicked "Byte is not available")
    | some byte =>
      if pos = offset + 4 ∧ byte % 256 % 16 ≠ byte % 256 then
        .error (.panicked "LEB integer is too big")
      else
        let result := result ||| (byte % 128) * 2 ^ shift % 2 ^ 32
        if byte % 256 < 128 then .ok result
        else getLebU32Loop buf offset (pos + 1) result (shift + 7) rem

/-- `get_leb_u32_at(offset)`. -/
def getLebU32At (buf : List Nat) (offset : Nat) : Except ReadErr Nat :=
  getLebU32Loop buf offset offset 0 0 5

/-! ## Names (`read_name` in `reader_util.rs`)

A name is a length-prefixed byte vector that must decode as UTF-8; the
decoded bytes are kept as bytes here.  `utf8Valid` is the RFC 3629
well-formedness check `String::from_utf8` performs. -/

/-- Well-formedness of a byte sequence as UTF-8. -/
def utf8Valid : List Nat → Bool
  | [] => true
  | b :: rest =>
    let b := b % 256
    if b < 0x80 then utf8Valid rest
    else if 0xC2 ≤ b ∧ b ≤ 0xDF then
      match rest with
      | c1 :: r => decide (0x80 ≤ c1 % 256 ∧ c1 % 256 ≤ 0xBF) && utf8Valid r
      | [] => false
    else if 0xE0 ≤ b ∧ b ≤ 0xEF then
      match rest with
      | c1 :: c2 :: r =>
        let lo1 := if b = 0xE0 then 0xA0 else 0x80
        let hi1 := if b = 0xED then 0x9F else 0xBF
        decide (lo1 ≤ c1 % 256 ∧ c1 % 256 ≤ hi1) &&
          decide (0x80 ≤ c2 % 256 ∧ c2 % 256 ≤ 0xBF) && utf8Valid r
      | _ => false
    else if 0xF0 ≤ b ∧ b ≤ 0xF4 then
      match rest with
      | c1 :: c2 :: c3 :: r =>
        let lo1 := if b = 0xF0 then 0x90 else 0x80
        let hi1 := if b = 0xF4 then 0x8F else 0xBF
        decide (lo1 ≤ c1 % 256 ∧ c1 % 256 ≤ hi1) &&
          decide (0x80 ≤ c2 % 256 ∧ c2 % 256 ≤ 0xBF) &&
          decide (0x80 ≤ c3 % 256 ∧ c3 % 256 ≤ 0xBF) && utf8Valid r
      | _ => false
    else false

/-- The element loop of `read_vec`: apply the element reader `n` times. -/
def readVecLoop {α : Type} (elemRd : Rdr → RdResult α) : Nat → Rdr → RdResult (List α)
  | 0, r => .ok ([], r)
  | n + 1, r =>
    match elemRd r with
    | .error e => .error e
    | .ok (a, r') =>
      match readVecLoop elemRd n r' with
      | .error e => .error e
      | .ok (as, r'') => .ok (a :: as, r'')

/-- `read_vec`: a `u32` length followed by that many elements. -/
def readVec {α : Type} (elemRd : Rdr → RdResult α) (r : Rdr) : RdResult (List α) :=
  match readLebU32 r with
  | .error e => .error e
  | .ok (n, r') => readVecLoop elemRd n r'

/-- `read_name`. -/
def readName (r : Rdr) : RdResult (List Nat) :=
  match readVec readU8 r with
  | .error e => .error e
  | .ok (bytes, r') =>
    if utf8Valid bytes then .ok (bytes, r') else .error (.invalidData "Invalid UTF8 in name")

/-- `read_bytes_to_end`: everything the reader will still yield. -/
def readBytesToEnd (r : Rdr) : RdResult (List Nat) :=
  .ok (r.bytes.take r.avail, r.consume r.avail)

/-! ## The instruction scanner (`src/wasm/src/parser/`)

`read_expression_bytes` accumulates the bytes of one expression by
scanning instruction after instruction until the terminating `End`.  The
opcode table itself (`Opcode::from_byte`, declared in
`src/wasm/src/parser/opcode.rs`) is absent from the source tree. -/

/-- Modelled from the spec: `Opcode::from_byte` lives in the missing file
`src/wasm/src/parser/opcode.rs`; per §6 "the opcode table is a fixed
byte-to-mnemonic map (see the MVP spec)", so the valid lead bytes are the
assigned MVP one-byte opcodes: control `0x00-0x05` and `0x0B-0x11`,
parametric `0x1A-0x1B`, variable `0x20-0x24`, and the contiguous
memory/const/numeric range `0x28-0xBF`. -/
def opcodeByteValid (b : Nat) : Bool :=
  b ≤ 0x05 ∨ (0x0B ≤ b ∧ b ≤ 0x11) ∨ b = 0x1A ∨ b = 0x1B ∨
    (0x20 ≤ b ∧ b ≤ 0x24) ∨ (0x28 ≤ b ∧ b ≤ 0xBF)

/-- `InstructionCategory` (`instruction_category.rs`). -/
inductive Category where
  | singleByte : Category
  | singleLeb : Category
  | singleFloat : Category
  | singleDouble : Category
  | block (allowElse : Bool) : Category
  | els : Category
  | fin : Category
  | twoLeb : Category
  | branchTable : Category
deriving DecidableEq, Repr

/-- `InstructionCategory::from_lead_byte` = `Opcode::from_byte` followed
by `from_opcode`; the opcode-name groups of `from_opcode`
(`instruction_category.rs` lines 65-112) are translated to their byte
values: `Block`/`Loop` `0x02-0x03`, `If` `0x04`, `Else` `0x05`, `End`
`0x0B`, `Br`/`BrIf` `0x0C-0x0D`, `BrTable` `0x0E`, `Call` `0x10`,
`CallIndirect` `0x11`, the variable ops `0x20-0x24`, loads/stores
`0x28-0x3E`, `MemorySize`/`MemoryGrow` `0x3F-0x40`, the integer consts
`0x41-0x42`, `F32Const` `0x43`, `F64Const` `0x44`, all else single-byte. -/
def categoryFromLeadByte (b : Nat) : Except ReadErr Category :=
  if opcodeByteValid b then
    .ok
      (if b = 0x02 ∨ b = 0x03 then .block false
       else if b = 0x04 then .block true
       else if b = 0x05 then .els
       else if b = 0x0B then .fin
       else if b = 0x0C ∨ b = 0x0D then .singleLeb
       else if b = 0x0E then .branchTable
       else if b = 0x10 then .singleLeb
       else if b = 0x11 then .twoLeb
       else if 0x20 ≤ b ∧ b ≤ 0x24 then .singleLeb
       else if 0x28 ≤ b ∧ b ≤ 0x3E then .twoLeb
       else if b = 0x3F ∨ b = 0x40 then .singleLeb
       else if b = 0x41 ∨ b = 0x42 then .singleLeb
       else if b = 0x43 then .singleFloat
       else if b = 0x44 then .singleDouble
       else .singleByte)
  else
    .error (.invalidData "Unknown opcode byte")

/-- `BlockType::try_from` on a byte: the enum's values are `None = 0`
and the four value types `0x7C-0x7F` (note the source gives `None`
discriminant 0, not the wire encoding `0x40`). -/
def blockTypeByteValid (b : Nat) : Bool := b = 0 ∨ (0x7C ≤ b ∧ b ≤ 0x7F)

/-- `ReaderInstructionAccumulator` (`expression_reader.rs`): the byte
source being drained, the accumulated buffer, and the start of the
current instruction within it. -/
structure Acc where
  r : Rdr
  buf : List Nat
  nextInst : Nat
deriving DecidableEq, Repr

/-- `ensure_bytes(bytes)`: pull from the reader until the buffer holds
`next_inst + bytes` bytes. -/
def ensureBytes (a : Acc) (n : Nat) : Except ReadErr Acc :=
  let required := a.nextInst + n
  if required ≤ a.buf.length then .ok a
  else
    match readExact (required - a.buf.length) a.r with
    | .error e => .error e
    | .ok (pulled, r') => .ok { r := r', buf := a.buf ++ pulled, nextInst := a.nextInst }

/-- `get_byte(idx)`: the buffer byte at `next_inst + idx` (the source
asserts availability, which every caller has ensured). -/
def getByteA (a : Acc) (idx : Nat) : Nat := a.buf.getD (a.nextInst + idx) 0

/-- `ensure_leb_at(offset)` (`instruction_accumulator.rs` lines 12-23):
grow the buffer one byte at a time until a byte without the continuation
bit ends the LEB; returns its length.  Fueled: each round consumes one
fresh input byte. -/
def ensureLebAt : Nat → Acc → Nat → Except ReadErr (Nat × Acc)
  | 0, _, _ => .error (.panicked "scanner fuel exhausted")
  | fuel + 1, a, offset => ensureLebAtLoop fuel a offset 1
where
  /-- The loop body, carrying `number_length`. -/
  ensureLebAtLoop : Nat → Acc → Nat → Nat → Except ReadErr (Nat × Acc)
    | 0, _, _, _ => .error (.panicked "scanner fuel exhausted")
    | fuel + 1, a, offset, numberLength =>
      match ensureBytes a (offset + numberLength) with
      | .error e => .error e
      | .ok a' =>
        if getByteA a' (offset + numberLength - 1) % 256 < 128 then .ok (numberLength, a')
        else ensureLebAtLoop fuel a' offset (numberLength + 1)

/-- `InstructionData`. -/
structure InstrData where
  length : Nat
  blockRange : Option (Nat × Nat)
  elseRange : Option (Nat × Nat)
deriving DecidableEq, Repr

/-- `simple_instruction_data`. -/
def simpleInstrData (length : Nat) : InstrData := ⟨length, none, none⟩

mutual

/-- `InstructionCategory::ensure_instruction` (`instruction_category.rs`
lines 114-140): make the bytes of one instruction of the given category
available and measure it.  Fueled for the nested-block recursion; fuel is
bounded by the input length at every call site. -/
def ensureInstruction : Nat → Category → Acc → Nat → Except ReadErr (InstrData × Acc)
  | 0, _, _, _ => .error (.panicked "scanner fuel exhausted")
  | fuel + 1, cat, a, offset =>
    match cat with
    | .singleByte | .els | .fin =>
      match ensureBytes a (offset + 1) with
      | .error e => .error e
      | .ok a' => .ok (simpleInstrData 1, a')
    | .singleLeb =>
      match ensureLebAt (fuel + 1) a (offset + 1) with
      | .error e => .error e
      | .ok (lebSize, a') => .ok (simpleInstrData (1 + lebSize), a')
    | .singleFloat =>
      match ensureBytes a (offset + 5) with
      | .error e => .error e
      | .ok a' => .ok (simpleInstrData 5, a')
    | .singleDouble =>
      match ensureBytes a (offset + 9) with
      | .error e => .error e
      | .ok a' => .ok (simpleInstrData 9, a')
    | .block allowElse =>
      match ensureBytes a (offset + 2) with
      | .error e => .error e
      | .ok a' =>
        if blockTypeByteValid (getByteA a' (offset + 1) % 256) then
          ensureBlockLoop fuel allowElse a' offset (offset + 2) (offset + 2) none
        else .error (.invalidData "Invalid block type byte")
    | .twoLeb =>
      match ensureLebAt (fuel + 1) a (offset + 1) with
      | .error e => .error e
      | .ok (alignSize, a') =>
        match ensureLebAt (fuel + 1) a' (offset + 1 + alignSize) with
        | .error e => .error e
        | .ok (offsetSize, a'') => .ok (simpleInstrData (1 + alignSize + offsetSize), a'')
    | .branchTable =>
      match ensureLebAt (fuel + 1) a (offset + 1) with
      | .error e => .error e
      | .ok (lenSize, a') =>
        match getLebU32At a'.buf (a'.nextInst + offset + 1) with
        | .error e => .error e
        | .ok vectorLength =>
          match branchTableTargets (fuel + 1) a' offset (1 + lenSize) vectorLength with
          | .error e => .error e
          | .ok (instrSize, a'') =>
            match ensureLebAt (fuel + 1) a'' (offset + instrSize) with
            | .error e => .error e
            | .ok (lastSize, a3) => .ok (simpleInstrData (instrSize + lastSize), a3)

/-- The per-target loop of `ensure_branch_table`. -/
def branchTableTargets : Nat → Acc → Nat → Nat → Nat → Except ReadErr (Nat × Acc)
  | 0, _, _, _, _ => .error (.panicked "scanner fuel exhausted")
  | _, a, _, instrSize, 0 => .ok (instrSize, a)
  | fuel + 1, a, offset, instrSize, n + 1 =>
    match ensureLebAt (fuel + 1) a (offset + instrSize) with
    | .error e => .error e
    | .ok (sz, a') => branchTableTargets fuel a' offset (instrSize + sz) n

/-- The child loop of `ensure_block_instruction` (`instruction_category.rs`
lines 153-219), walking the nested stream to the matching `End` and
recording the then/else byte ranges. -/
def ensureBlockLoop : Nat → Bool → Acc → Nat → Nat → Nat →
    Option (Nat × Nat) → Except ReadErr (InstrData × Acc)
  | 0, _, _, _, _, _, _ => .error (.panicked "scanner fuel exhausted")
  | fuel + 1, allowElse, a, offset, nextChildOffset, rangeStart, blockRange =>
    match ensureBytes a (nextChildOffset + 1) with
    | .error e => .error e
    | .ok a' =>
      match categoryFromLeadByte (getByteA a' nextChildOffset % 256) with
      | .error e => .error e
      | .ok childCat =>
        match ensureInstruction fuel childCat a' nextChildOffset with
        | .error e => .error e
        | .ok (childData, a'') =>
          if childCat = .els then
            if blockRange.isSome ∨ ¬allowElse then
              .error (.invalidData "Unexpected else in block")
            else
              ensureBlockLoop fuel allowElse a'' offset
                (nextChildOffset + childData.length) (nextChildOffset + childData.length)
                (some (rangeStart - offset, nextChildOffset - offset))
          else if childCat = .fin then
            let currentRange := (rangeStart - offset, nextChildOffset - offset)
            match blockRange with
            | some br =>
              .ok (⟨nextChildOffset + childData.length - offset, some br, some currentRange⟩, a'')
            | none =>
              .ok (⟨nextChildOffset + childData.length - offset, some currentRange, none⟩, a'')
          else
            ensureBlockLoop fuel allowElse a'' offset
              (nextChildOffset + childData.length) rangeStart blockRange

end

/-- One `move_to_next` step (`expression_reader.rs` lines 21-33): advance
past the current instruction, ensure the next one, and report whether it
was something other than `End`. -/
def moveToNext (fuel : Nat) (a : Acc) : Except ReadErr (Bool × Acc) :=
  let a := { a with nextInst := a.buf.length }
  match ensureBytes a 1 with
  | .error e => .error e
  | .ok a' =>
    match categoryFromLeadByte (getByteA a' 0 % 256) with
    | .error e => .error e
    | .ok cat =>
      match ensureInstruction fuel cat a' 0 with
      | .error e => .error e
      | .ok (_, a'') => .ok (cat ≠ .fin, a'')

/-- The accumulation loop of `read_expression_bytes`. -/
def readExpressionLoop : Nat → Acc → Except ReadErr (List Nat × Rdr)
  | 0, _ => .error (.panicked "scanner fuel exhausted")
  | fuel + 1, a =>
    match moveToNext (fuel + 1) a with
    | .error e => .error e
    | .ok (more, a') =>
      if more then readExpressionLoop fuel a' else .ok (a'.buf, a'.r)

/-- `read_expression_bytes` = `Expr::read`: accumulate one expression,
its terminating `End` byte included. -/
def readExpressionBytes (r : Rdr) : RdResult (List Nat) :=
  readExpressionLoop (r.avail + 2) ⟨r, [], 0⟩

/-! ## Wire-level entity readers (`src/wasm/src/reader/type_reader.rs`)

These mirror each `TypeReader` impl.  Decoded names stay as byte lists at
this level. -/

/-- `core::ValueType` on the wire. -/
inductive ValueTypeB where
  | i32 : ValueTypeB
  | i64 : ValueTypeB
  | f32 : ValueTypeB
  | f64 : ValueTypeB
deriving DecidableEq, Repr

/-- `ValueType::from_byte`. -/
def valueTypeFromByte (b : Nat) : Except ReadErr ValueTypeB :=
  if b = 0x7F then .ok .i32
  else if b = 0x7E then .ok .i64
  else if b = 0x7D then .ok .f32
  else if b = 0x7C then .ok .f64
  else .error (.invalidData "Invalid value type byte")

/-- `ValueType::read`. -/
def readValueType (r : Rdr) : RdResult ValueTypeB :=
  match readU8 r with
  | .error e => .error e
  | .ok (b, r') =>
    match valueTypeFromByte (b % 256) with
    | .ok v => .ok (v, r')
    | .error e => .error e

/-- `core::Limits`. -/
inductive LimitsB where
  | unbounded (min : Nat) : LimitsB
  | bounded (min max : Nat) : LimitsB
deriving DecidableEq, Repr

/-- `Limits::read`: tag byte `0x00` (min only) or `0x01` (min and max). -/
def readLimits (r : Rdr) : RdResult LimitsB :=
  match readU8 r with
  | .error e => .error e
  | .ok (tag, r') =>
    if tag % 256 = 0 then
      match readLebU32 r' with
      | .error e => .error e
      | .ok (min, r'') => .ok (.unbounded min, r'')
    else if tag % 256 = 1 then
      match readLebU32 r' with
      | .error e => .error e
      | .ok (min, r'') =>
        match readLebU32 r'' with
        | .error e => .error e
        | .ok (max, r3) => .ok (.bounded min max, r3)
    else .error (.invalidData "Unknown Limits tag")

/-- `TableType::read`: a `funcref` element-type byte (`0x70`) plus limits. -/
def readTableType (r : Rdr) : RdResult LimitsB :=
  match readU8 r with
  | .error e => .error e
  | .ok (et, r') =>
    if et % 256 = 0x70 then readLimits r'
    else .error (.invalidData "Unknown funcref type")

/-- `MemType::read`. -/
def readMemType (r : Rdr) : RdResult LimitsB := readLimits r

/-- `core::GlobalType` on the wire: value type and mutability. -/
structure GlobalTypeB where
  t : ValueTypeB
  mutVar : Bool
deriving DecidableEq, Repr

/-- `GlobalType::read` (`MutableType::from_byte`: `0` const, `1` var). -/
def readGlobalType (r : Rdr) : RdResult GlobalTypeB :=
  match readValueType r with
  | .error e => .error e
  | .ok (t, r') =>
    match readU8 r' with
    | .error e => .error e
    | .ok (m, r'') =>
      if m % 256 = 0 then .ok (⟨t, false⟩, r'')
      else if m % 256 = 1 then .ok (⟨t, true⟩, r'')
      else .error (.invalidData "Unknown mutable type")

/-- `core::FuncType` on the wire. -/
structure FuncTypeB where
  argTypes : List ValueTypeB
  retTypes : List ValueTypeB
deriving DecidableEq, Repr

/-- `FuncType::read`: header byte `0x60`, then the two value-type vectors. -/
def readFuncType (r : Rdr) : RdResult FuncTypeB :=
  match readU8 r with
  | .error e => .error e
  | .ok (header, r') =>
    if header % 256 = 0x60 then
      match readVec readValueType r' with
      | .error e => .error e
      | .ok (argTypes, r'') =>
        match readVec readValueType r'' with
        | .error e => .error e
        | .ok (retTypes, r3) => .ok (⟨argTypes, retTypes⟩, r3)
    else .error (.invalidData "Invalid func type header")

/-- `core::ImportDesc` on the wire. -/
inductive ImportDescB where
  | typeIdx (idx : Nat) : ImportDescB
  | tableType (tt : LimitsB) : ImportDescB
  | memType (mt : LimitsB) : ImportDescB
  | globalType (gt : GlobalTypeB) : ImportDescB
deriving DecidableEq, Repr

/-- `ImportDesc::read`. -/
def readImportDesc (r : Rdr) : RdResult ImportDescB :=
  match readU8 r with
  | .error e => .error e
  | .ok (tag, r') =>
    if tag % 256 = 0 then
      match readLebUsize r' with
      | .error e => .error e
      | .ok (idx, r'') => .ok (.typeIdx idx, r'')
    else if tag % 256 = 1 then
      match readTableType r' with
      | .error e => .error e
      | .ok (tt, r'') => .ok (.tableType tt, r'')
    else if tag % 256 = 2 then
      match readMemType r' with
      | .error e => .error e
      | .ok (mt, r'') => .ok (.memType mt, r'')
    else if tag % 256 = 3 then
      match readGlobalType r' with
      | .error e => .error e
      | .ok (gt, r'') => .ok (.globalType gt, r'')
    else .error (.invalidData "Unknown ImportDesc tag")

/-- `core::Import` on the wire. -/
structure ImportB where
  modName : List Nat
  name : List Nat
  desc : ImportDescB
deriving DecidableEq, Repr

/-- `Import::read`. -/
def readImport (r : Rdr) : RdResult ImportB :=
  match readName r with
  | .error e => .error e
  | .ok (modName, r') =>
    match readName r' with
    | .error e => .error e
    | .ok (name, r'') =>
      match readImportDesc r'' with
      | .error e => .error e
      | .ok (desc, r3) => .ok (⟨modName, name, desc⟩, r3)

/-- `core::GlobalDef` on the wire: type plus initializer expression
bytes. -/
structure GlobalDefB where
  gt : GlobalTypeB
  e : List Nat
deriving DecidableEq, Repr

/-- `GlobalDef::read`. -/
def readGlobalDef (r : Rdr) : RdResult GlobalDefB :=
  match readGlobalType r with
  | .error e => .error e
  | .ok (gt, r') =>
    match readExpressionBytes r' with
    | .error e => .error e
    | .ok (e, r'') => .ok (⟨gt, e⟩, r'')

/-- `core::ExportDesc` on the wire. -/
inductive ExportDescB where
  | func (idx : Nat) : ExportDescB
  | table (idx : Nat) : ExportDescB
  | mem (idx : Nat) : ExportDescB
  | globalExp (idx : Nat) : ExportDescB
deriving DecidableEq, Repr

/-- `ExportDesc::read`. -/
def readExportDesc (r : Rdr) : RdResult ExportDescB :=
  match readU8 r with
  | .error e => .error e
  | .ok (tag, r') =>
    match readLebUsize r' with
    | .error e => .error e
    | .ok (idx, r'') =>
      if tag % 256 = 0 then .ok (.func idx, r'')
      else if tag % 256 = 1 then .ok (.table idx, r'')
      else if tag % 256 = 2 then .ok (.mem idx, r'')
      else if tag % 256 = 3 then .ok (.globalExp idx, r'')
      else .error (.invalidData "Invalid export desc type")

/-- `core::Export` on the wire. -/
structure ExportB where
  nm : List Nat
  d : ExportDescB
deriving DecidableEq, Repr

/-- `Export::read`. -/
def readExport (r : Rdr) : RdResult ExportB :=
  match readName r with
  | .error e => .error e
  | .ok (nm, r') =>
    match readExportDesc r' with
    | .error e => .error e
    | .ok (d, r'') => .ok (⟨nm, d⟩, r'')

/-- `core::Element` on the wire: table index, offset expression bytes,
function index vector. -/
structure ElementB where
  x : Nat
  e : List Nat
  y : List Nat
deriving DecidableEq, Repr

/-- `Element::read`. -/
def readElement (r : Rdr) : RdResult ElementB :=
  match readLebUsize r with
  | .error e => .error e
  | .ok (x, r') =>
    match readExpressionBytes r' with
    | .error e => .error e
    | .ok (e, r'') =>
      match readVec readLebU32 r'' with
      | .error e => .error e
      | .ok (y, r3) => .ok (⟨x, e, y⟩, r3)

/-- `core::Locals` on the wire: a run length and a value type. -/
structure LocalsB where
  n : Nat
  t : ValueTypeB
deriving DecidableEq, Repr

/-- `Locals::read`. -/
def readLocals (r : Rdr) : RdResult LocalsB :=
  match readLebU32 r with
  | .error e => .error e
  | .ok (n, r') =>
    match readValueType r' with
    | .error e => .error e
    | .ok (t, r'') => .ok (⟨n, t⟩, r'')

/-- `core::Func` on the wire: locals spec and body expression bytes. -/
structure FuncB where
  locals : List LocalsB
  e : List Nat
deriving DecidableEq, Repr

/-- `Func::read` (`type_reader.rs` lines 180-194): a size prefix scopes a
payload reader over the locals vector and the body expression; the
trailing `assert!(payload_reader.is_at_end())` panics when the body does
not fill the declared size. -/
def readFunc (r : Rdr) : RdResult FuncB :=
  match readLebU32 r with
  | .error e => .error e
  | .ok (size, r') =>
    let rs := r'.pushScope size
    match readVec readLocals rs with
    | .error e => .error e
    | .ok (locals, rs') =>
      match readExpressionBytes rs' with
      | .error e => .error e
      | .ok (e, rs'') =>
        let (remaining, rOut) := rs''.popScope
        if remaining = 0 then .ok (⟨locals, e⟩, rOut)
        else .error (.panicked "assertion failed: payload_reader.is_at_end()")

/-- `core::Data` on the wire: memory index, offset expression bytes, and
the raw byte vector. -/
structure DataB where
  x : Nat
  e : List Nat
  b : List Nat
deriving DecidableEq, Repr

/-- `Data::read`. -/
def readData (r : Rdr) : RdResult DataB :=
  match readLebUsize r with
  | .error e => .error e
  | .ok (x, r') =>
    match readExpressionBytes r' with
    | .error e => .error e
    | .ok (e, r'') =>
      match readVec readU8 r'' with
      | .error e => .error e
      | .ok (b, r3) => .ok (⟨x, e, b⟩, r3)

/-! ## The module reader (`src/wasm/src/reader/module_reader.rs`)

`RawModule::read` walks the section stream after the 8-byte header,
enforcing the canonical order with a moving "expected section" cursor —
which, crucially, stays on the section type just processed, so an
immediately repeated section matches again and its payload is appended. -/

/-- `core::SectionType`, custom plus the eleven known sections. -/
inductive SectionTypeB where
  | custom : SectionTypeB
  | typeS : SectionTypeB
  | importS : SectionTypeB
  | functionS : SectionTypeB
  | tableS : SectionTypeB
  | memoryS : SectionTypeB
  | globalS : SectionTypeB
  | exportS : SectionTypeB
  | startS : SectionTypeB
  | elementS : SectionTypeB
  | codeS : SectionTypeB
  | dataS : SectionTypeB
deriving DecidableEq, Repr

/-- `SectionType::from_byte` (`core/section.rs`): IDs 0-11, anything else
is an unknown-section decode error. -/
def sectionTypeFromByte (b : Nat) : Except ReadErr SectionTypeB :=
  match b with
  | 0 => .ok .custom
  | 1 => .ok .typeS
  | 2 => .ok .importS
  | 3 => .ok .functionS
  | 4 => .ok .tableS
  | 5 => .ok .memoryS
  | 6 => .ok .globalS
  | 7 => .ok .exportS
  | 8 => .ok .startS
  | 9 => .ok .elementS
  | 10 => .ok .codeS
  | 11 => .ok .dataS
  | _ => .error (.invalidData "Unknown section type")

/-- `ModuleBuilder::get_next_section_type` (`module_reader.rs` lines
97-115): the canonical successor of each non-custom section; `DataSection`
has none.  The source panics on custom/unknown input; that arm is
unreachable because the caller filters custom sections first. -/
def getNextSectionType : SectionTypeB → Option SectionTypeB
  | .typeS => some .importS
  | .importS => some .functionS
  | .functionS => some .tableS
  | .tableS => some .memoryS
  | .memoryS => some .globalS
  | .globalS => some .exportS
  | .exportS => some .startS
  | .startS => some .elementS
  | .elementS => some .codeS
  | .codeS => some .dataS
  | .dataS => none
  | .custom => none

/-- The `while let Some(expected)` scan of `RawModule::read`
(`module_reader.rs` lines 210-225): walk the expected-section cursor
forward until it matches the incoming section type; `none` means the
cursor ran off the end (out-of-order section).  The 12-step fuel covers
the full chain. -/
def findExpected : Option SectionTypeB → SectionTypeB → Nat → Option SectionTypeB
  | none, _, _ => none
  | some _, _, 0 => none
  | some expected, st, fuel + 1 =>
    if expected = st then some expected
    else findExpected (getNextSectionType expected) st fuel

/-- `ModuleBuilder`'s accumulated section contents. -/
structure ModuleBuilderB where
  types : List FuncTypeB
  typeidx : List Nat
  funcs : List FuncB
  tables : List LimitsB
  mems : List LimitsB
  globals : List GlobalDefB
  elem : List ElementB
  dataSegs : List DataB
  start : Option Nat
  imports : List ImportB
  exports : List ExportB
deriving DecidableEq, Repr

/-- `ModuleBuilder::new`. -/
def ModuleBuilderB.new : ModuleBuilderB :=
  ⟨[], [], [], [], [], [], [], [], none, [], []⟩

/-- `ModuleBuilder::update_start`: a second start section is a decode
error. -/
def updateStart (b : ModuleBuilderB) (newStart : Nat) : Except ReadErr ModuleBuilderB :=
  match b.start with
  | some _ => .error (.invalidData "Multiple start sections found")
  | none => .ok { b with start := some newStart }

/-- `ModuleBuilder::process_section` (`module_reader.rs` lines 45-95):
read the section's vector and append it to the builder (`append_to_vector`);
the start section reads a single index through `update_start`. -/
def processSection (st : SectionTypeB) (b : ModuleBuilderB) (r : Rdr) :
    Except ReadErr (ModuleBuilderB × Rdr) :=
  match st with
  | .typeS =>
    match readVec readFuncType r with
    | .error e => .error e
    | .ok (v, r') => .ok ({ b with types := b.types ++ v }, r')
  | .importS =>
    match readVec readImport r with
    | .error e => .error e
    | .ok (v, r') => .ok ({ b with imports := b.imports ++ v }, r')
  | .functionS =>
    match readVec readLebUsize r with
    | .error e => .error e
    | .ok (v, r') => .ok ({ b with typeidx := b.typeidx ++ v }, r')
  | .tableS =>
    match readVec readTableType r with
    | .error e => .error e
    | .ok (v, r') => .ok ({ b with tables := b.tables ++ v }, r')
  | .memoryS =>
    match readVec readMemType r with
    | .error e => .error e
    | .ok (v, r') => .ok ({ b with mems := b.mems ++ v }, r')
  | .globalS =>
    match readVec readGlobalDef r with
    | .error e => .error e
    | .ok (v, r') => .ok ({ b with globals := b.globals ++ v }, r')
  | .exportS =>
    match readVec readExport r with
    | .error e => .error e
    | .ok (v, r') => .ok ({ b with exports := b.exports ++ v }, r')
  | .startS =>
    match readLebU32 r with
    | .error e => .error e
    | .ok (idx, r') =>
      match updateStart b idx with
      | .error e => .error e
      | .ok b' => .ok (b', r')
  | .elementS =>
    match readVec readElement r with
    | .error e => .error e
    | .ok (v, r') => .ok ({ b with elem := b.elem ++ v }, r')
  | .codeS =>
    match readVec readFunc r with
    | .error e => .error e
    | .ok (v, r') => .ok ({ b with funcs := b.funcs ++ v }, r')
  | .dataS =>
    match readVec readData r with
    | .error e => .error e
    | .ok (v, r') => .ok ({ b with dataSegs := b.dataSegs ++ v }, r')
  | .custom => .error (.panicked "Cannot read unknown or custom sections")

/-- The decoded `core::RawModule`. -/
structure RawModuleB where
  types : List FuncTypeB
  typeidx : List Nat
  funcs : List FuncB
  tables : List LimitsB
  mems : List LimitsB
  globals : List GlobalDefB
  elem : List ElementB
  dataSegs : List DataB
  start : Option Nat
  imports : List ImportB
  exports : List ExportB
deriving DecidableEq, Repr

/-- `ModuleBuilder::make_module` (`module_reader.rs` lines 117-145): an
empty `typeidx` is rejected with "No functions found"; a length mismatch
between `typeidx` and the code table is rejected; otherwise the raw
module is assembled. -/
def makeModule (b : ModuleBuilderB) : Except ReadErr RawModuleB :=
  if b.typeidx.length = 0 then
    .error (.invalidData "No functions found")
  else if b.typeidx.length ≠ b.funcs.length then
    .error (.invalidData "TypeIdx and code tables do not match sizes")
  else
    .ok ⟨b.types, b.typeidx, b.funcs, b.tables, b.mems, b.globals, b.elem,
      b.dataSegs, b.start, b.imports, b.exports⟩

/-- `read_next_section_header` (`module_reader.rs` lines 160-173):
`SectionType::read` is a single byte fed to `from_byte` (the `TypeReader`
impl for `SectionType` is not under `src/`; modelled from the spec's §4.3
section-id table); an `UnexpectedEof` on that byte signals the end of the
module stream. -/
def readNextSectionHeader (r : Rdr) : Except ReadErr (Option SectionTypeB × Rdr) :=
  match readU8 r with
  | .error .eof => .ok (none, r)
  | .error e => .error e
  | .ok (b, r') =>
    match sectionTypeFromByte (b % 256) with
    | .error e => .error e
    | .ok st => .ok (some st, r')

/-- The section loop of `RawModule::read` (`module_reader.rs` lines
195-247).  Custom sections are skipped wherever they appear; a non-custom
section is matched against the expected-section cursor (which stays put
after a match, so immediate repeats are accepted), with cursor exhaustion
hitting `assert!(false, "Sections are in unexpected order")` — a panic;
after each section the scoped reader must be exactly consumed or
`assert!(false, "Failed to read whole section")` fires. -/
def rawModuleLoop : Nat → Option SectionTypeB → ModuleBuilderB → Rdr →
    Except ReadErr ModuleBuilderB
  | 0, _, _, _ => .error (.panicked "reader fuel exhausted")
  | fuel + 1, currentSectionType, builder, r =>
    match readNextSectionHeader r with
    | .error e => .error e
    | .ok (none, _) => .ok builder
    | .ok (some st, r1) =>
      match readLebU32 r1 with
      | .error e => .error e
      | .ok (sectionLength, r2) =>
        let rs := r2.pushScope sectionLength
        if st = .custom then
          match readName rs with
          | .error e => .error e
          | .ok (_, rs1) =>
            match readBytesToEnd rs1 with
            | .error e => .error e
            | .ok (_, rs2) =>
              let (remaining, rNext) := rs2.popScope
              if remaining = 0 then rawModuleLoop fuel currentSectionType builder rNext
              else .error (.panicked "Failed to read whole section")
        else
          match findExpected currentSectionType st 12 with
          | none => .error (.panicked "Sections are in unexpected order")
          | some matched =>
            match processSection st builder rs with
            | .error e => .error e
            | .ok (builder', rs1) =>
              let (remaining, rNext) := rs1.popScope
              if remaining = 0 then rawModuleLoop fuel (some matched) builder' rNext
              else .error (.panicked "Failed to read whole section")

/-- `RawModule::read`: the fixed 8-byte header, the section loop starting
with `TypeSection` expected, then `make_module`. -/
def rawModuleRead (bytes : List Nat) : Except ReadErr RawModuleB :=
  let r : Rdr := ⟨bytes, []⟩
  match readExact 8 r with
  | .error e => .error e
  | .ok (header, r') =>
    if header = [0x00, 0x61, 0x73, 0x6D, 0x01, 0x00, 0x00, 0x00] then
      match rawModuleLoop (bytes.length + 1) (some .typeS) ModuleBuilderB.new r' with
      | .error e => .error e
      | .ok builder => makeModule builder
    else .error (.invalidData "Invalid module header")

/-! ## Concrete module byte streams used by the theorems below -/

/-- A module whose function section appears twice in a row (section id 3,
a non-custom section), followed by a code section declaring the two
matching empty bodies. -/
def dupFunctionSectionStream : List Nat :=
  [0x00, 0x61, 0x73, 0x6D, 0x01, 0x00, 0x00, 0x00] ++
  [0x03, 0x02, 0x01, 0x00] ++
  [0x03, 0x02, 0x01, 0x00] ++
  [0x0A, 0x07, 0x02, 0x02, 0x00, 0x0B, 0x02, 0x00, 0x0B]

/-- A module repeating the function section non-adjacently: function,
code, then function again. -/
def nonAdjacentRepeatStream : List Nat :=
  [0x00, 0x61, 0x73, 0x6D, 0x01, 0x00, 0x00, 0x00] ++
  [0x03, 0x02, 0x01, 0x00] ++
  [0x0A, 0x04, 0x01, 0x02, 0x00, 0x0B] ++
  [0x03, 0x02, 0x01, 0x00]

/-- A well-formed module with no functions at all: one memory and an
export of that memory — a valid MVP module shape. -/
def memoryOnlyStream : List Nat :=
  [0x00, 0x61, 0x73, 0x6D, 0x01, 0x00, 0x00, 0x00] ++
  [0x05, 0x03, 0x01, 0x00, 0x01] ++
  [0x07, 0x05, 0x01, 0x01, 0x6D, 0x02, 0x00]

/-!
# Theorems

One theorem (plus witness or counterexample where required) per claim of
the specification under scrutiny.
-/

/-- Decidable equality of reader results, used to settle the concrete
decoding runs below by evaluation. -/
instance {ε α : Type} [DecidableEq ε] [DecidableEq α] : DecidableEq (Except ε α) := fun a b =>
  match a, b with
  | .ok x, .ok y =>
    if h : x = y then .isTrue (by rw [h]) else .isFalse (by intro hc; cases hc; exact h rfl)
  | .error x, .error y =>
    if h : x = y then .isTrue (by rw [h]) else .isFalse (by intro hc; cases hc; exact h rfl)
  | .ok _, .error _ => .isFalse (by intro hc; cases hc)
  | .error _, .ok _ => .isFalse (by intro hc; cases hc)

/-- Claim C1: the spec says executing `CallIndirect` pops an i32 index,
looks the callable up in the table, traps on an empty/out-of-range entry
or a type mismatch, and otherwise calls it.  The interpreter does none of
this: the `CallIndirect` dispatch arm of `execute_expression_internal` is
`unimplemented!("Call not implemented")`, so every execution of the
opcode panics — regardless of the immediates, the stack, the store, or
what follows in the expression — instead of reporting a trap or calling
anything.  (`FunctionModule::execute_indirect_function`, which does
implement the described lookup, is never invoked by the executor.) -/
theorem c1_call_indirect_always_panics (typeIdx tableIdx : Nat) (rest : List Instr)
    (stack : List StackEntry) (store : Store) :
    executeExpressionInternal (.callIndirect typeIdx tableIdx :: rest) stack store =
      .panicked "not implemented: Call not implemented" := rfl

/-- Claim C2: the spec requires signed division/remainder to report a
trap as a runtime error on divisor 0 and on `INT_MIN / -1`.  The code
uses `wrapping_div` / `wrapping_rem`, so a zero divisor panics the
process (Rust's wrapping division still panics on 0) and `INT_MIN / -1`
silently pushes the wrapped result `INT_MIN` with no error at all. -/
theorem c2_signed_division_panics_or_wraps :
    executeSingleInstruction .i32DivS [.i32Entry 0, .i32Entry 1] ⟨[]⟩ =
      .panicked "attempt to divide by zero" ∧
    executeSingleInstruction .i64DivS [.i64Entry 0, .i64Entry 1] ⟨[]⟩ =
      .panicked "attempt to divide by zero" ∧
    executeSingleInstruction .i32RemS [.i32Entry 0, .i32Entry 1] ⟨[]⟩ =
      .panicked "attempt to calculate the remainder with a divisor of zero" ∧
    executeSingleInstruction .i64RemS [.i64Entry 0, .i64Entry 1] ⟨[]⟩ =
      .panicked "attempt to calculate the remainder with a divisor of zero" ∧
    executeSingleInstruction .i32DivS [.i32Entry (ofI32 (-1)), .i32Entry (2 ^ 31)] ⟨[]⟩ =
      .done [.i32Entry (2 ^ 31)] ⟨[]⟩ ∧
    executeSingleInstruction .i64DivS [.i64Entry (ofI64 (-1)), .i64Entry (2 ^ 63)] ⟨[]⟩ =
      .done [.i64Entry (2 ^ 63)] ⟨[]⟩ := by
  refine ⟨?_, ?_, ?_, ?_, ?_, ?_⟩ <;> decide

/-- Claim C3: the spec requires the float-to-int truncation opcodes to
trap on NaN, ±∞, and out-of-range values.  The code implements them with
Rust's saturating `as` casts inside `unary_op`, which never fails on any
float value: NaN becomes 0, infinities and out-of-range values clamp to
the destination bounds, and a result is pushed in every case. -/
theorem c3_trunc_saturates_instead_of_trapping :
    executeSingleInstruction .i32TruncF32S [.f32Entry .nan] ⟨[]⟩ =
      .done [.i32Entry 0] ⟨[]⟩ ∧
    executeSingleInstruction .i32TruncF32S [.f32Entry .inf] ⟨[]⟩ =
      .done [.i32Entry (2 ^ 31 - 1)] ⟨[]⟩ ∧
    executeSingleInstruction .i32TruncF32S [.f32Entry .neginf] ⟨[]⟩ =
      .done [.i32Entry (2 ^ 31)] ⟨[]⟩ ∧
    executeSingleInstruction .i32TruncF32U [.f32Entry (.finite (-3 : ℚ))] ⟨[]⟩ =
      .done [.i32Entry 0] ⟨[]⟩ ∧
    executeSingleInstruction .i32TruncF64S [.f64Entry (.finite (2147483648 : ℚ))] ⟨[]⟩ =
      .done [.i32Entry (2 ^ 31 - 1)] ⟨[]⟩ ∧
    executeSingleInstruction .i64TruncF64S [.f64Entry .nan] ⟨[]⟩ =
      .done [.i64Entry 0] ⟨[]⟩ ∧
    executeSingleInstruction .i64TruncF32U [.f32Entry .neginf] ⟨[]⟩ =
      .done [.i64Entry 0] ⟨[]⟩ := by
  refine ⟨?_, ?_, ?_, ?_, ?_, ?_, ?_⟩ <;> decide

/-- Claim C4: the spec says the 64-bit shift and rotate opcodes take the
right operand modulo 64.  The code takes it modulo 32 (`a << (b % 32)`
and friends, a copy of the i32 arms), so for any amount with
`b mod 64 ≥ 32` the result disagrees with the claim: `i64.shl(1, 32)`
yields 1 instead of 2^32, `i64.shr_u(2^32, 32)` yields 2^32 instead of 1,
`i64.rotl(1, 32)` yields 1 instead of 2^32, and `i64.shr_s(2^63, 36)`
shifts by 4 instead of 36. -/
theorem c4_i64_shift_uses_mod_32 :
    executeSingleInstruction .i64Shl [.i64Entry 32, .i64Entry 1] ⟨[]⟩ =
      .done [.i64Entry 1] ⟨[]⟩ ∧
    executeSingleInstruction .i64Shl [.i64Entry 32, .i64Entry 1] ⟨[]⟩ ≠
      .done [.i64Entry (2 ^ 32)] ⟨[]⟩ ∧
    executeSingleInstruction .i64ShrU [.i64Entry 32, .i64Entry (2 ^ 32)] ⟨[]⟩ =
      .done [.i64Entry (2 ^ 32)] ⟨[]⟩ ∧
    executeSingleInstruction .i64Rotl [.i64Entry 32, .i64Entry 1] ⟨[]⟩ =
      .done [.i64Entry 1] ⟨[]⟩ ∧
    executeSingleInstruction .i64ShrS [.i64Entry 36, .i64Entry (2 ^ 63)] ⟨[]⟩ =
      .done [.i64Entry (ofI64 (-(2 ^ 59)))] ⟨[]⟩ := by
  refine ⟨?_, ?_, ?_, ?_, ?_⟩ <;> decide

/-- Claim C5: the spec says an element segment whose offset plus length
exceeds the table size makes `Table::set_entries` fail and instantiation
return an error.  `set_entries` returns `()` and writes each slot by
direct vector indexing: on a table of one slot with a two-entry segment
it overwrites slot 0 and then panics with a `Vec` index-out-of-bounds —
a partial write followed by a panic, not an `Err`, and
`initialize_table_element` has no failure path for it. -/
theorem c5_set_entries_panics_after_partial_write :
    initializeTableElement ⟨[10, 11], [Table.newFromBounds 1 none]⟩ ⟨[], []⟩
        ⟨0, [.i32Const 0], [0, 1]⟩ =
      .panicked "index out of bounds" [⟨1, none, [some 10]⟩] ∧
    (Table.newFromBounds 1 none).setEntries 0 [10, 11] =
      (⟨1, none, [some 10]⟩, some "index out of bounds") := by
  exact ⟨by decide, by decide⟩

/-- Claim C6: the spec says LEB128 decoding rejects a u32 encoding longer
than 5 bytes (and a 64-bit one longer than 10 bytes) with a decode error.
`read_leb_u32` has no length check at all: it keeps consuming
continuation bytes, and on the sixth byte the accumulated shift reaches
35, so the `u32` shift overflows — an arithmetic panic under debug
assertions (a release build silently wraps) — never a decode error.  The
parser-side 64-bit decoder `get_leb_u64_at` does bound the length, but by
`panic!("LEB integer is too big")`, also not a decode error. -/
theorem c6_overlong_leb_is_not_a_decode_error :
    readLebU32 ⟨[0x80, 0x80, 0x80, 0x80, 0x80, 0x00], []⟩ =
      .error (.panicked "attempt to shift left with overflow") ∧
    getLebU64At [0x80, 0x80, 0x80, 0x80, 0x80, 0x80, 0x80, 0x80, 0x80, 0x80, 0x00] 0 =
      .error (.panicked "LEB integer is too big") := by
  exact ⟨by decide, by decide⟩

set_option maxHeartbeats 1000000 in
/-- Claim C7 counterexample: a byte stream in which the non-custom
function section (id 3) appears twice decodes successfully — the second
copy is processed again and its contents appended (`typeidx = [0, 0]`) —
refuting "decoding fails with a decode error" for duplicated non-custom
sections. -/
theorem c7_duplicate_section_decodes :
    rawModuleRead dupFunctionSectionStream =
      .ok ⟨[], [0, 0], [⟨[], [0x0B]⟩, ⟨[], [0x0B]⟩], [], [], [], [], [], none, [], []⟩ := by
  decide

set_option maxHeartbeats 1000000 in
/-- Claim C7 as amended: only custom sections may repeat freely; for the
others the expected-section cursor stays on the section just processed,
so an immediately repeated non-custom section is matched again and its
payload appended rather than rejected; only a duplicated start section
fails decoding (with "Multiple start sections found"), and a non-adjacent
repeat aborts via the section-order assertion (a panic, not an ordinary
decode error). -/
theorem c7_amended_duplicate_section_handling :
    (∀ st : SectionTypeB, findExpected (some st) st 12 = some st) ∧
    (∀ (b : ModuleBuilderB) (n m : Nat), b.start = some n →
      updateStart b m = .error (.invalidData "Multiple start sections found")) ∧
    rawModuleRead nonAdjacentRepeatStream =
      .error (.panicked "Sections are in unexpected order") := by
  refine ⟨fun st => ?_, fun b n m h => ?_, by decide⟩
  · cases st <;> rfl
  · simp [updateStart, h]

/-- Claim C7 witness: the amended theorem applied at a concrete builder
whose start index is already set, and at a concrete section type. -/
theorem c7_amended_duplicate_section_handling_witness :
    findExpected (some .codeS) .codeS 12 = some .codeS ∧
    updateStart { ModuleBuilderB.new with start := some 0 } 1 =
      .error (.invalidData "Multiple start sections found") :=
  ⟨c7_amended_duplicate_section_handling.1 .codeS,
    c7_amended_duplicate_section_handling.2.1 _ 0 1 rfl⟩

/-- Claim C8 counterexample: a module exporting two functions under the
same name is not rejected — `collect_exports` succeeds and the second
export silently replaces the first in the map. -/
theorem c8_duplicate_export_name_accepted :
    collectExports ⟨[10, 11], []⟩ ⟨[], []⟩ [⟨"f", .func 0⟩, ⟨"f", .func 1⟩] [] =
      .ok [("f", .function 11)] := by
  decide

/-- Claim C8 as amended: duplicate export names are not rejected;
`collect_exports` inserts into the name map with `HashMap::insert`, so
for any two exports sharing a name (each individually resolvable) the
collection succeeds and the map holds the later export's entity. -/
theorem c8_amended_last_export_wins (fm : FunctionModule) (dm : DataModule)
    (nm : String) (d1 d2 : ExportDesc) (v1 v2 : ExportValue)
    (h1 : (if isDataExport d1 then dm.collectExport d1 else fm.collectExport d1) = .ok v1)
    (h2 : (if isDataExport d2 then dm.collectExport d2 else fm.collectExport d2) = .ok v2) :
    collectExports fm dm [⟨nm, d1⟩, ⟨nm, d2⟩] [] = .ok [(nm, v2)] := by
  simp [collectExports, h1, h2, hashMapInsert, List.lookup]

/-- Claim C8 witness: the amended theorem at the two-function module with
both exports named "f". -/
theorem c8_amended_last_export_wins_witness :
    collectExports ⟨[10, 11], []⟩ ⟨[], []⟩ [⟨"fn", .func 0⟩, ⟨"fn", .func 1⟩] [] =
      .ok [("fn", .function 11)] :=
  c8_amended_last_export_wins ⟨[10, 11], []⟩ ⟨[], []⟩ "fn" (.func 0) (.func 1)
    (.function 10) (.function 11) rfl rfl

/-- Claim C9 counterexample: the claim quantifies over every memory
state, but `memory.grow` pushes the pre-grow page count only after the
`as u32` truncation in the `MemoryGrow` arm, and `memory.size` likewise
pushes the count modulo `2^32`.  On a memory already holding `2^32`
pages, growing by 1 succeeds (appending exactly one page) yet pushes 0 —
not the pre-grow page count `2^32` — and the subsequent `memory.size`
pushes 1, not `2^32 + 1`. -/
theorem c9_truncated_push_counterexample :
    executeSingleInstruction (.memoryGrow 0) [.i32Entry 1] ⟨[⟨0, none, 2 ^ 32⟩]⟩ =
      .done [.i32Entry 0] ⟨[⟨0, none, 2 ^ 32 + 1⟩]⟩ ∧
    (0 : Nat) ≠ 2 ^ 32 ∧
    executeSingleInstruction (.memorySize 0) [] ⟨[⟨0, none, 2 ^ 32 + 1⟩]⟩ =
      .done [.i32Entry 1] ⟨[⟨0, none, 2 ^ 32 + 1⟩]⟩ ∧
    (1 : Nat) ≠ 2 ^ 32 + 1 := by
  refine ⟨by decide, by decide, by decide, by decide⟩

/-- Claim C9 as amended: for every memory state and operand, `memory.grow`
pops `n` and either appends exactly `n` pages and pushes the pre-grow
page count truncated to u32 (its value modulo `2^32`), or — when
`current_size + n` exceeds the declared maximum or overflows usize —
pushes −1 (the u32 pattern `2^32 − 1`) and leaves the page count
unchanged (no partial growth), so a subsequent `memory.size` pushes
`(pre + n) mod 2^32` on success and `pre mod 2^32` on failure. -/
theorem c9_amended_memory_grow_spec (m : Memory) (n : Nat) (rest : List StackEntry) :
    (m.pages + n ≤ usizeMax ∧ m.pages + n ≤ m.maximumPages.getD (m.pages + n) →
      executeSingleInstruction (.memoryGrow 0) (.i32Entry n :: rest) ⟨[m]⟩ =
        .done (.i32Entry (m.pages % 2 ^ 32) :: rest) ⟨[{ m with pages := m.pages + n }]⟩ ∧
      executeSingleInstruction (.memorySize 0) rest ⟨[{ m with pages := m.pages + n }]⟩ =
        .done (.i32Entry ((m.pages + n) % 2 ^ 32) :: rest)
          ⟨[{ m with pages := m.pages + n }]⟩) ∧
    (¬ (m.pages + n ≤ usizeMax ∧ m.pages + n ≤ m.maximumPages.getD (m.pages + n)) →
      executeSingleInstruction (.memoryGrow 0) (.i32Entry n :: rest) ⟨[m]⟩ =
        .done (.i32Entry (2 ^ 32 - 1) :: rest) ⟨[m]⟩ ∧
      executeSingleInstruction (.memorySize 0) rest ⟨[m]⟩ =
        .done (.i32Entry (m.pages % 2 ^ 32) :: rest) ⟨[m]⟩) := by
  have hneg : ofI32 (-1) = 2 ^ 32 - 1 := by decide
  constructor
  · rintro ⟨hov, hok⟩
    have hgrow : Store.growMemoryBy ⟨[m]⟩ 0 n = .ok ⟨[{ m with pages := m.pages + n }]⟩ := by
      simp [Store.growMemoryBy, Memory.growBy, Memory.currentSize, hov, hok]
    refine ⟨?_, ?_⟩
    · simp [executeSingleInstruction, Store.getMemorySize, Memory.currentSize, hgrow]
    · simp [executeSingleInstruction, Store.getMemorySize, Memory.currentSize]
  · intro hfail
    have hgrow : Store.growMemoryBy ⟨[m]⟩ 0 n = .error "New memory is too big" := by
      by_cases hov : m.pages + n ≤ usizeMax
      · have hmaxf : ¬ m.pages + n ≤ m.maximumPages.getD (m.pages + n) := fun h =>
          hfail ⟨hov, h⟩
        simp [Store.growMemoryBy, Memory.growBy, Memory.currentSize, hov, hmaxf]
      · simp [Store.growMemoryBy, Memory.growBy, Memory.currentSize, hov]
    refine ⟨?_, ?_⟩
    · simp [executeSingleInstruction, Store.getMemorySize, Memory.currentSize, hgrow, hneg]
    · simp [executeSingleInstruction, Store.getMemorySize, Memory.currentSize]

/-- Claim C9 witness: growing a one-page memory with maximum 3 by one
page succeeds pushing the old count 1, and growing it by five pages fails
pushing −1 and leaving the size at 1. -/
theorem c9_amended_memory_grow_spec_witness :
    executeSingleInstruction (.memoryGrow 0) [.i32Entry 1] ⟨[⟨1, some 3, 1⟩]⟩ =
      .done [.i32Entry 1] ⟨[⟨1, some 3, 2⟩]⟩ ∧
    executeSingleInstruction (.memoryGrow 0) [.i32Entry 5] ⟨[⟨1, some 3, 1⟩]⟩ =
      .done [.i32Entry (2 ^ 32 - 1)] ⟨[⟨1, some 3, 1⟩]⟩ :=
  ⟨((c9_amended_memory_grow_spec ⟨1, some 3, 1⟩ 1 []).1 (by decide)).1,
    ((c9_amended_memory_grow_spec ⟨1, some 3, 1⟩ 5 []).2 (by decide)).1⟩

set_option maxHeartbeats 1000000 in
/-- Claim C10: decoding rejects any module that defines no functions —
`make_module` returns the decode error "No functions found" whenever the
builder's `typeidx` is empty (function/code sections absent or empty),
and a concrete, otherwise-valid module exporting only a memory is indeed
rejected with exactly that error by the full reader. -/
theorem c10_module_without_functions_rejected :
    (∀ b : ModuleBuilderB, b.typeidx = [] →
      makeModule b = .error (.invalidData "No functions found")) ∧
    rawModuleRead memoryOnlyStream = .error (.invalidData "No functions found") := by
  refine ⟨fun b hb => ?_, by decide⟩
  simp [makeModule, hb]

/-- Claim C10 witness: the universal half applied to the fresh builder. -/
theorem c10_module_without_functions_rejected_witness :
    makeModule ModuleBuilderB.new = .error (.invalidData "No functions found") :=
  c10_module_without_functions_rejected.1 ModuleBuilderB.new rfl

end WasmInterp
